import Mathlib

/-!
Verification development for the react-simple-slots library.

The library (sources: `SlotContext.tsx`, `Slot.tsx`, `TemplateSlot.tsx`)
implements a scoped slot registry for React:

* `SlotProvider` owns a state cell `slotValues : Record<string, SlotChildren>`
  together with the updaters `setSlotValue` / `removeSlotValue`;
* `Slot` (the Writer) registers its memoized children under a name in a
  `useLayoutEffect`, and removes the name in the effect cleanup;
* `TemplateSlot` (the Resolver) looks the name up and renders either the
  default children, the registered content, or - when the registered value is
  a function - the function applied to the default children.

The embedding below models JavaScript values deeply.  Reference identity of
heap objects (React elements, functions) is modelled by a `Nat` allocation id
carried by the corresponding constructors, so that Lean's structural equality
on the embedded values coincides with JavaScript `===` (primitives compare by
value; separately allocated objects carry distinct ids).  A `Record` is an
association list with the key order and first-match lookup of a JS object.
-/

set_option autoImplicit false

namespace SimpleSlots

/-- A deeply embedded `ReactNode`: `undef` is JavaScript `undefined` (an
omitted `children` prop), `null` the explicit null node, `text` a string
node (a primitive, compared by value), and `element` a JSX element object
whose first field is its heap allocation id (reference identity). -/
inductive ReactNode where
  | undef : ReactNode
  | null : ReactNode
  | text : String → ReactNode
  | element : Nat → String → ReactNode → ReactNode
  deriving DecidableEq, Repr

/-- The body of a `SlotRenderPropFunction` (`(defaultChildren: ReactNode) =>
ReactNode`), embedded deeply so that application is executable: a constant
function, a function wrapping its argument in an element, or the identity. -/
inductive Transform where
  | constNode : ReactNode → Transform
  | wrapEl : Nat → String → Transform
  | idFn : Transform
  deriving DecidableEq, Repr

/-- Calling a render-prop function on the default children. -/
def applyTransform : Transform → ReactNode → ReactNode
  | .constNode c, _ => c
  | .wrapEl i tag, d => .element i tag d
  | .idFn, d => d

/-- `SlotChildren = ReactNode | SlotRenderPropFunction` from
`SlotContext.tsx`.  A function value carries its heap allocation id (two
separately allocated closures are `!==` even with the same body) and its
behaviour. -/
inductive SlotChildren where
  | node : ReactNode → SlotChildren
  | fn : Nat → Transform → SlotChildren
  deriving DecidableEq, Repr

/-- `isRenderProp` from `Slot.tsx` / `TemplateSlot.tsx`:
`typeof value === "function"`. -/
def isRenderProp : SlotChildren → Bool
  | .node _ => false
  | .fn _ _ => true

/-- The `slotValues` record: a JS object from slot names to slot children,
as an association list in key-insertion order with unique keys. -/
abbrev Record := List (String × SlotChildren)

/-- First-match association lookup (the entry a JS object stores for a key). -/
def getEntry : Record → String → Option SlotChildren
  | [], _ => none
  | (k, v) :: rest, n => if k = n then some v else getEntry rest n

/-- The JS `name in prev` key-presence test used by `removeSlotValue`. -/
def hasKey (m : Record) (n : String) : Bool :=
  (getEntry m n).isSome

/-- JS property access `m[n]`: the stored value, or `undefined` when the key
is absent. -/
def jsIndex (m : Record) (n : String) : SlotChildren :=
  (getEntry m n).getD (.node .undef)

/-- The object spread `{...prev, [name]: children}`: an existing key keeps
its position and gets the new value, a fresh key is appended at the end. -/
def objSet : Record → String → SlotChildren → Record
  | [], n, v => [(n, v)]
  | (k, w) :: rest, n, v =>
    if k = n then (n, v) :: rest else (k, w) :: objSet rest n v

/-- The rest-destructuring `const { [name]: _, ...rest } = prev`: the record
without the named key. -/
def objDelete : Record → String → Record
  | [], _ => []
  | (k, w) :: rest, n =>
    if k = n then rest else (k, w) :: objDelete rest n

/-- The updater passed to `setSlotValues` by `setSlotValue` in
`SlotContext.tsx`: if `prev[name] === children` the same object is returned
(no new instance), otherwise the spread-updated object. -/
def setSlotValue (prev : Record) (name : String) (children : SlotChildren) :
    Record :=
  if jsIndex prev name = children then prev
  else objSet prev name children

/-- The updater passed to `setSlotValues` by `removeSlotValue` in
`SlotContext.tsx`: if `name` is not a key of `prev` the same object is
returned, otherwise the object with the key removed. -/
def removeSlotValue (prev : Record) (name : String) : Record :=
  if hasKey prev name then objDelete prev name else prev

/-- Modelled from the spec: `hasSlot` is consumed by `TemplateSlot.tsx` and
exercised by the test suite, but its implementation is absent from
`SlotContext.tsx` as given.  Per the spec (Registry Scope capabilities,
`has(name) -> bool` "read-only, must reflect the latest committed mapping";
"A name is present in the mapping if and only if ...") and the tests
("should be consistent with slotValues object keys"), `hasSlot name` holds
exactly when the mapping has an entry for `name`. -/
def hasSlot (m : Record) (n : String) : Bool :=
  (getEntry m n).isSome

/-- The render function of `TemplateSlot.tsx` (the Resolver): reads
`slotContent = slotValues[name]`; when `hasSlot name` fails it renders the
default children; when the content is a render prop it renders the result of
calling it on the default children; otherwise it renders the content. -/
def templateSlot (slotValues : Record) (name : String) (children : ReactNode) :
    ReactNode :=
  let slotContent := jsIndex slotValues name
  if ¬ hasSlot slotValues name then children
  else
    match slotContent with
    | .fn _ t => applyTransform t children
    | .node c => c

/-- The `useState` cell of `SlotProvider`, with the heap identity of the
current `slotValues` object made explicit: `objId` is the allocation id of
the current object, `nextId` a fresh id for the next allocation.  A state
updater that returns `prev` itself keeps `objId`; one that builds a new
object gets a fresh id.  Consumers compare `objId` to model `===` on the
mapping instance. -/
structure ProviderState where
  objId : Nat
  slotValues : Record
  nextId : Nat
  deriving DecidableEq, Repr

/-- `setSlotValue` acting on the provider's state cell: the identity
short-circuit returns the very same state; otherwise the spread allocates a
new `slotValues` object. -/
def setSlotValueS (s : ProviderState) (name : String)
    (children : SlotChildren) : ProviderState :=
  if jsIndex s.slotValues name = children then s
  else
    { objId := s.nextId
      slotValues := objSet s.slotValues name children
      nextId := s.nextId + 1 }

/-- `removeSlotValue` acting on the provider's state cell: removing an
absent name returns the very same state; otherwise rest-destructuring
allocates a new `slotValues` object. -/
def removeSlotValueS (s : ProviderState) (name : String) : ProviderState :=
  if hasKey s.slotValues name then
    { objId := s.nextId
      slotValues := objDelete s.slotValues name
      nextId := s.nextId + 1 }
  else s

/-- The one error the library raises: `useSlotContext` throws
`Error("useSlotContext must be used within a SlotProvider")` when no
provider is above the caller.  The spec calls this the ConfigurationError. -/
inductive SlotError where
  | configurationError : String → SlotError
  deriving DecidableEq, Repr

/-- `useSlotContext` from `SlotContext.tsx`: the ambient context is `some`
provider state inside an established scope and `none` outside; outside, the
hook throws. -/
def useSlotContext (ctx : Option ProviderState) :
    Except SlotError ProviderState :=
  match ctx with
  | none =>
    .error (.configurationError
      "useSlotContext must be used within a SlotProvider")
  | some s => .ok s

/-- `useMemo` body in `Slot.tsx`: a render prop is wrapped in a freshly
allocated closure `(defaultChildren) => children(defaultChildren)` with the
same behaviour; other content is passed through unchanged. -/
def computeMemo (children : SlotChildren) (fresh : Nat) : SlotChildren :=
  match children with
  | .fn _ t => .fn fresh t
  | c => c

/-- One mounted `Slot` component instance: its current props and the value
cached by `useMemo` (the memo is keyed on the `children` reference). -/
structure SlotInstance where
  name : String
  children : SlotChildren
  memoContent : SlotChildren
  deriving DecidableEq, Repr

/-- Mounting a `Slot`: `useMemo` computes the memoized content (allocating
`fresh` if a wrapper closure is needed) and the layout effect registers it
via `setSlotValue name memoizedContent`. -/
def slotMount (name : String) (children : SlotChildren) (fresh : Nat)
    (s : ProviderState) : SlotInstance × ProviderState :=
  let memo := computeMemo children fresh
  (⟨name, children, memo⟩, setSlotValueS s name memo)

/-- Re-rendering a mounted `Slot` with new props: `useMemo` returns the
cached value when the `children` reference is unchanged; the layout effect
(dependencies `[name, memoizedContent]`) re-runs only when one of them
changed, in which case React first runs the previous cleanup
(`removeSlotValue` of the old name) and then the new effect
(`setSlotValue` of the new name). -/
def slotUpdate (inst : SlotInstance) (name : String)
    (children : SlotChildren) (fresh : Nat) (s : ProviderState) :
    SlotInstance × ProviderState :=
  let memo :=
    if inst.children = children then inst.memoContent
    else computeMemo children fresh
  if inst.name = name ∧ inst.memoContent = memo then (⟨name, children, memo⟩, s)
  else (⟨name, children, memo⟩, setSlotValueS (removeSlotValueS s inst.name) name memo)

/-- Unmounting a `Slot`: the layout-effect cleanup calls
`removeSlotValue(name)`. -/
def slotUnmount (inst : SlotInstance) (s : ProviderState) : ProviderState :=
  removeSlotValueS s inst.name

/-- Rendering a `TemplateSlot` under an ambient context: the hook is
consulted first, so outside a scope the ConfigurationError propagates. -/
def runTemplateSlot (ctx : Option ProviderState) (name : String)
    (children : ReactNode) : Except SlotError ReactNode := do
  let s ← useSlotContext ctx
  pure (templateSlot s.slotValues name children)

/-- Calling the `setSlotValue` capability under an ambient context. -/
def runSetSlotValue (ctx : Option ProviderState) (name : String)
    (children : SlotChildren) : Except SlotError ProviderState := do
  let s ← useSlotContext ctx
  pure (setSlotValueS s name children)

/-- Calling the `removeSlotValue` capability under an ambient context. -/
def runRemoveSlotValue (ctx : Option ProviderState) (name : String) :
    Except SlotError ProviderState := do
  let s ← useSlotContext ctx
  pure (removeSlotValueS s name)

/-- Mounting a `Slot` under an ambient context (the component calls
`useSlotContext` during render, before its effect runs). -/
def runSlotMount (ctx : Option ProviderState) (name : String)
    (children : SlotChildren) (fresh : Nat) :
    Except SlotError (SlotInstance × ProviderState) := do
  let s ← useSlotContext ctx
  pure (slotMount name children fresh s)

/-- Updating a mounted `Slot` under an ambient context. -/
def runSlotUpdate (ctx : Option ProviderState) (inst : SlotInstance)
    (name : String) (children : SlotChildren) (fresh : Nat) :
    Except SlotError (SlotInstance × ProviderState) := do
  let s ← useSlotContext ctx
  pure (slotUpdate inst name children fresh s)

/-- Unmounting a mounted `Slot` under an ambient context. -/
def runSlotUnmount (ctx : Option ProviderState) (inst : SlotInstance) :
    Except SlotError ProviderState := do
  let s ← useSlotContext ctx
  pure (slotUnmount inst s)

/-- The JS-object invariant that every reachable `slotValues` record
satisfies: keys are unique. -/
def keysNodup (m : Record) : Prop :=
  (m.map Prod.fst).Nodup

instance (m : Record) : Decidable (keysNodup m) :=
  inferInstanceAs (Decidable ((m.map Prod.fst).Nodup))

/-! ### Lemmas about the registry operations -/

theorem getEntry_objSet_self (m : Record) (n : String) (v : SlotChildren) :
    getEntry (objSet m n v) n = some v := by
  induction m with
  | nil => simp [objSet, getEntry]
  | cons kv rest ih =>
    obtain ⟨k, w⟩ := kv
    by_cases h : k = n
    · simp [objSet, h, getEntry]
    · simp [objSet, h, getEntry, ih]

theorem getEntry_objSet_ne (m : Record) (n n' : String) (v : SlotChildren)
    (h : n' ≠ n) : getEntry (objSet m n v) n' = getEntry m n' := by
  induction m with
  | nil => simp [objSet, getEntry, Ne.symm h]
  | cons kv rest ih =>
    obtain ⟨k, w⟩ := kv
    by_cases hk : k = n
    · subst hk
      simp [objSet, getEntry, Ne.symm h]
    · simp [objSet, hk, getEntry, ih]

theorem getEntry_objDelete_ne (m : Record) (n n' : String) (h : n' ≠ n) :
    getEntry (objDelete m n) n' = getEntry m n' := by
  induction m with
  | nil => simp [objDelete]
  | cons kv rest ih =>
    obtain ⟨k, w⟩ := kv
    by_cases hk : k = n
    · subst hk
      simp [objDelete, getEntry, Ne.symm h]
    · simp [objDelete, hk, getEntry, ih]

theorem objDelete_objSet_of_absent (m : Record) (n : String)
    (v : SlotChildren) (h : getEntry m n = none) :
    objDelete (objSet m n v) n = m := by
  induction m with
  | nil => simp [objSet, objDelete]
  | cons kv rest ih =>
    obtain ⟨k, w⟩ := kv
    by_cases hk : k = n
    · simp [getEntry, hk] at h
    · simp [getEntry, hk] at h
      simp [objSet, objDelete, hk, ih h]

theorem getEntry_eq_none_of_not_mem (m : Record) (n : String)
    (h : n ∉ m.map Prod.fst) : getEntry m n = none := by
  induction m with
  | nil => simp [getEntry]
  | cons kv rest ih =>
    obtain ⟨k, w⟩ := kv
    simp only [List.map_cons, List.mem_cons] at h
    push_neg at h
    simp [getEntry, Ne.symm h.1, ih h.2]

theorem getEntry_objDelete_self_of_nodup (m : Record) (n : String)
    (h : keysNodup m) : getEntry (objDelete m n) n = none := by
  induction m with
  | nil => simp [objDelete, getEntry]
  | cons kv rest ih =>
    obtain ⟨k, w⟩ := kv
    simp only [keysNodup, List.map_cons, List.nodup_cons] at h
    by_cases hk : k = n
    · subst hk
      simp only [objDelete, if_pos rfl]
      exact getEntry_eq_none_of_not_mem rest k h.1
    · simp [objDelete, hk, getEntry, ih h.2]

theorem getEntry_of_jsIndex_ne_undef (m : Record) (n : String)
    (v : SlotChildren) (h : jsIndex m n = v) (hv : v ≠ .node .undef) :
    getEntry m n = some v := by
  unfold jsIndex at h
  cases he : getEntry m n with
  | none => rw [he] at h; simp at h; exact absurd h.symm hv
  | some w => rw [he] at h; simp at h; rw [h]

theorem jsIndex_setSlotValue_self (m : Record) (n : String)
    (v : SlotChildren) : jsIndex (setSlotValue m n v) n = v := by
  unfold setSlotValue
  split
  · next h => exact h
  · next h => simp [jsIndex, getEntry_objSet_self]

theorem getEntry_setSlotValue_ne (m : Record) (n n' : String)
    (v : SlotChildren) (h : n' ≠ n) :
    getEntry (setSlotValue m n v) n' = getEntry m n' := by
  unfold setSlotValue
  by_cases hc : jsIndex m n = v
  · simp [hc]
  · simp [hc, getEntry_objSet_ne m n n' v h]

theorem getEntry_removeSlotValue_ne (m : Record) (n n' : String)
    (h : n' ≠ n) : getEntry (removeSlotValue m n) n' = getEntry m n' := by
  unfold removeSlotValue
  by_cases hc : hasKey m n
  · simp [hc, getEntry_objDelete_ne m n n' h]
  · simp [hc]

theorem setSlotValueS_slotValues (s : ProviderState) (n : String)
    (v : SlotChildren) :
    (setSlotValueS s n v).slotValues = setSlotValue s.slotValues n v := by
  unfold setSlotValueS setSlotValue
  split <;> rfl

theorem removeSlotValueS_slotValues (s : ProviderState) (n : String) :
    (removeSlotValueS s n).slotValues = removeSlotValue s.slotValues n := by
  unfold removeSlotValueS removeSlotValue
  split <;> rfl

theorem templateSlot_default (m : Record) (n : String) (d : ReactNode)
    (h : hasSlot m n = false) : templateSlot m n d = d := by
  unfold templateSlot
  simp [h]

theorem getEntry_eq_none_of_hasKey_false (m : Record) (n : String)
    (h : hasKey m n = false) : getEntry m n = none := by
  unfold hasKey at h
  cases he : getEntry m n with
  | none => rfl
  | some w => rw [he] at h; simp at h

theorem getEntry_removeSlotValue_self_of_nodup (m : Record) (n : String)
    (hw : keysNodup m) : getEntry (removeSlotValue m n) n = none := by
  unfold removeSlotValue hasKey
  cases he : getEntry m n with
  | none => simp [he]
  | some w => simp [he, getEntry_objDelete_self_of_nodup m n hw]

theorem remove_set_restores (s : ProviderState) (n : String)
    (v : SlotChildren) (h : getEntry s.slotValues n = none) :
    (removeSlotValueS (setSlotValueS s n v) n).slotValues = s.slotValues := by
  unfold setSlotValueS
  by_cases hc : jsIndex s.slotValues n = v
  · rw [if_pos hc]
    simp [removeSlotValueS, hasKey, h]
  · rw [if_neg hc]
    simp [removeSlotValueS, hasKey, getEntry_objSet_self,
      objDelete_objSet_of_absent s.slotValues n v h]

/-! ### The claims -/

/-- Claim C1: for every slot name with no entry in the registry and every
default content, rendering `TemplateSlot` with that name and default
children inside an established scope emits exactly the default children. -/
theorem unset_name_renders_default (s : ProviderState) (n : String)
    (d : ReactNode) (h : hasSlot s.slotValues n = false) :
    runTemplateSlot (some s) n d = .ok d := by
  have hd := templateSlot_default s.slotValues n d h
  show Except.ok (templateSlot s.slotValues n d) = Except.ok d
  rw [hd]

/-- Witness for C1 at a concrete registry with no entry for `"main"`. -/
theorem unset_name_renders_default_witness :
    runTemplateSlot
        (some ⟨0, [("x", SlotChildren.node (ReactNode.text "B"))], 1⟩)
        "main" (ReactNode.text "A") =
      .ok (ReactNode.text "A") :=
  unset_name_renders_default
    ⟨0, [("x", SlotChildren.node (ReactNode.text "B"))], 1⟩
    "main" (ReactNode.text "A") (by decide)

/-- Claim C2: inside an established scope, every public operation - the
Resolver render, Writer mount/update/unmount, and the direct `setSlotValue`
and `removeSlotValue` capabilities - completes successfully, returning a
value rather than an error. -/
theorem in_scope_operations_never_error (s : ProviderState) (n : String)
    (v : SlotChildren) (d : ReactNode) (c : SlotChildren) (fresh : Nat)
    (inst : SlotInstance) (n' : String) :
    runTemplateSlot (some s) n d = .ok (templateSlot s.slotValues n d) ∧
    runSetSlotValue (some s) n v = .ok (setSlotValueS s n v) ∧
    runRemoveSlotValue (some s) n = .ok (removeSlotValueS s n) ∧
    runSlotMount (some s) n c fresh = .ok (slotMount n c fresh s) ∧
    runSlotUpdate (some s) inst n' c fresh = .ok (slotUpdate inst n' c fresh s) ∧
    runSlotUnmount (some s) inst = .ok (slotUnmount inst s) :=
  ⟨rfl, rfl, rfl, rfl, rfl, rfl⟩

/-- Claim C3: after registering a render-prop function under a name, the
Resolver for that name emits exactly the function applied to the Resolver's
own default content, whatever was registered before. -/
theorem transform_receives_resolver_default (m : Record) (n : String)
    (i : Nat) (t : Transform) (d : ReactNode) :
    templateSlot (setSlotValue m n (.fn i t)) n d = applyTransform t d := by
  have hj : jsIndex (setSlotValue m n (.fn i t)) n = .fn i t :=
    jsIndex_setSlotValue_self m n (.fn i t)
  have hg : getEntry (setSlotValue m n (.fn i t)) n = some (.fn i t) :=
    getEntry_of_jsIndex_ne_undef _ _ _ hj (by simp)
  unfold templateSlot
  simp [hasSlot, hg, hj]

/-- Claim C4, evaluated at the failing input: with an empty registry,
`setSlotValue "a" undefined` is a no-op (the absent-key read also yields
`undefined`, so the identity short-circuit fires), no entry is created, and
the Resolver for `"a"` falls back to its default content instead of
emitting the registered (undefined) value. -/
theorem set_undefined_then_resolve_falls_back :
    setSlotValue [] "a" (SlotChildren.node ReactNode.undef) = ([] : Record) ∧
    hasSlot (setSlotValue [] "a" (SlotChildren.node ReactNode.undef)) "a" =
      false ∧
    templateSlot (setSlotValue [] "a" (SlotChildren.node ReactNode.undef))
        "a" (ReactNode.text "D") =
      ReactNode.text "D" := by
  decide

/-- Claim C5, evaluated at the failing input: setting an unset name to
`undefined` does not transition the pair to `Set(undefined)` - the name
stays absent and the state cell is returned unchanged, contradicting the
spec's transition relation and the repository's own test, which expects
`hasSlot("undefinedSlot")` to become `true`. -/
theorem set_undefined_on_unset_creates_no_entry :
    hasKey (setSlotValue [] "undefinedSlot"
        (SlotChildren.node ReactNode.undef)) "undefinedSlot" = false ∧
    setSlotValueS ⟨0, [], 1⟩ "undefinedSlot"
        (SlotChildren.node ReactNode.undef) = ⟨0, [], 1⟩ := by
  decide

/-- Claim C6: no-op writes preserve the identity of the mapping instance -
setting a name to the value it already holds (same reference) and removing
an absent name both return the very same state, and a set that does return
a new instance really changed the mapping. -/
theorem noop_writes_preserve_instance_identity (s : ProviderState)
    (n : String) (v : SlotChildren) (n₂ n₃ : String) (v₃ : SlotChildren)
    (h1 : jsIndex s.slotValues n = v) (h2 : hasKey s.slotValues n₂ = false) :
    setSlotValueS s n v = s ∧ removeSlotValueS s n₂ = s ∧
    (setSlotValueS s n₃ v₃ ≠ s →
      (setSlotValueS s n₃ v₃).slotValues ≠ s.slotValues) := by
  refine ⟨?_, ?_, ?_⟩
  · unfold setSlotValueS
    rw [if_pos h1]
  · simp [removeSlotValueS, h2]
  · intro hne heq
    by_cases hc : jsIndex s.slotValues n₃ = v₃
    · exact hne (by unfold setSlotValueS; rw [if_pos hc])
    · have hsv : (setSlotValueS s n₃ v₃).slotValues = objSet s.slotValues n₃ v₃ := by
        unfold setSlotValueS
        rw [if_neg hc]
      rw [hsv] at heq
      have h0 := getEntry_objSet_self s.slotValues n₃ v₃
      rw [heq] at h0
      exact hc (by unfold jsIndex; rw [h0]; rfl)

/-- Witness for C6 at a concrete state: re-setting `"a"` to its current
value and removing the absent `"b"` both return the same state instance. -/
theorem noop_writes_preserve_instance_identity_witness :
    setSlotValueS ⟨5, [("a", SlotChildren.node (ReactNode.text "x"))], 6⟩
        "a" (SlotChildren.node (ReactNode.text "x")) =
      ⟨5, [("a", SlotChildren.node (ReactNode.text "x"))], 6⟩ ∧
    removeSlotValueS ⟨5, [("a", SlotChildren.node (ReactNode.text "x"))], 6⟩
        "b" =
      ⟨5, [("a", SlotChildren.node (ReactNode.text "x"))], 6⟩ ∧
    (setSlotValueS ⟨5, [("a", SlotChildren.node (ReactNode.text "x"))], 6⟩
          "c" (SlotChildren.node ReactNode.null) ≠
        ⟨5, [("a", SlotChildren.node (ReactNode.text "x"))], 6⟩ →
      (setSlotValueS ⟨5, [("a", SlotChildren.node (ReactNode.text "x"))], 6⟩
            "c" (SlotChildren.node ReactNode.null)).slotValues ≠
        (⟨5, [("a", SlotChildren.node (ReactNode.text "x"))], 6⟩ :
            ProviderState).slotValues) :=
  noop_writes_preserve_instance_identity
    ⟨5, [("a", SlotChildren.node (ReactNode.text "x"))], 6⟩
    "a" (SlotChildren.node (ReactNode.text "x")) "b" "c"
    (SlotChildren.node ReactNode.null) (by decide) (by decide)

/-- Claim C7: a name absent from the registry, registered by mounting a
Writer and released by unmounting it, is absent again afterwards, and a
subsequent Resolver for it emits its default content again. -/
theorem writer_teardown_restores_default (s : ProviderState) (n : String)
    (c : SlotChildren) (fresh : Nat) (d : ReactNode)
    (h : hasKey s.slotValues n = false) :
    hasKey (slotUnmount (slotMount n c fresh s).1
        (slotMount n c fresh s).2).slotValues n = false ∧
    templateSlot (slotUnmount (slotMount n c fresh s).1
        (slotMount n c fresh s).2).slotValues n d = d := by
  have hnone := getEntry_eq_none_of_hasKey_false s.slotValues n h
  have hr : (slotUnmount (slotMount n c fresh s).1
      (slotMount n c fresh s).2).slotValues = s.slotValues :=
    remove_set_restores s n (computeMemo c fresh) hnone
  constructor
  · rw [hr]; exact h
  · rw [hr]
    exact templateSlot_default s.slotValues n d (by simp [hasSlot, hnone])

/-- Witness for C7: `"main"` is not registered, a Writer mounts with text
content and unmounts, and the Resolver emits the default `"A"` again. -/
theorem writer_teardown_restores_default_witness :
    hasKey (slotUnmount
        (slotMount "main" (SlotChildren.node (ReactNode.text "C")) 7
          ⟨0, [("x", SlotChildren.node (ReactNode.text "B"))], 1⟩).1
        (slotMount "main" (SlotChildren.node (ReactNode.text "C")) 7
          ⟨0, [("x", SlotChildren.node (ReactNode.text "B"))], 1⟩).2).slotValues
      "main" = false ∧
    templateSlot (slotUnmount
        (slotMount "main" (SlotChildren.node (ReactNode.text "C")) 7
          ⟨0, [("x", SlotChildren.node (ReactNode.text "B"))], 1⟩).1
        (slotMount "main" (SlotChildren.node (ReactNode.text "C")) 7
          ⟨0, [("x", SlotChildren.node (ReactNode.text "B"))], 1⟩).2).slotValues
      "main" (ReactNode.text "A") = ReactNode.text "A" :=
  writer_teardown_restores_default
    ⟨0, [("x", SlotChildren.node (ReactNode.text "B"))], 1⟩
    "main" (SlotChildren.node (ReactNode.text "C")) 7 (ReactNode.text "A")
    (by decide)

/-- Claim C8: setting or removing one name never alters another name's
entry - its presence and stored value are unchanged. -/
theorem write_frame_other_names (m : Record) (n n' : String)
    (v : SlotChildren) (h : n' ≠ n) :
    getEntry (setSlotValue m n v) n' = getEntry m n' ∧
    getEntry (removeSlotValue m n) n' = getEntry m n' :=
  ⟨getEntry_setSlotValue_ne m n n' v h, getEntry_removeSlotValue_ne m n n' h⟩

/-- Witness for C8: writing and removing `"a"` leaves the entry of `"b"`
untouched. -/
theorem write_frame_other_names_witness :
    getEntry (setSlotValue
        [("b", SlotChildren.node (ReactNode.text "keep"))] "a"
        (SlotChildren.node ReactNode.null)) "b" =
      getEntry [("b", SlotChildren.node (ReactNode.text "keep"))] "b" ∧
    getEntry (removeSlotValue
        [("b", SlotChildren.node (ReactNode.text "keep"))] "a") "b" =
      getEntry [("b", SlotChildren.node (ReactNode.text "keep"))] "b" :=
  write_frame_other_names
    [("b", SlotChildren.node (ReactNode.text "keep"))] "a" "b"
    (SlotChildren.node ReactNode.null) (by decide)

/-- Claim C9: every capability invoked without an enclosing scope raises
the ConfigurationError with the scope-requirement message, and the error
propagates to the caller. -/
theorem out_of_scope_raises_configuration_error (n : String)
    (v : SlotChildren) (d : ReactNode) (c : SlotChildren) (fresh : Nat)
    (inst : SlotInstance) (n' : String) :
    runTemplateSlot none n d = .error (.configurationError
      "useSlotContext must be used within a SlotProvider") ∧
    runSetSlotValue none n v = .error (.configurationError
      "useSlotContext must be used within a SlotProvider") ∧
    runRemoveSlotValue none n = .error (.configurationError
      "useSlotContext must be used within a SlotProvider") ∧
    runSlotMount none n c fresh = .error (.configurationError
      "useSlotContext must be used within a SlotProvider") ∧
    runSlotUpdate none inst n' c fresh = .error (.configurationError
      "useSlotContext must be used within a SlotProvider") ∧
    runSlotUnmount none inst = .error (.configurationError
      "useSlotContext must be used within a SlotProvider") :=
  ⟨rfl, rfl, rfl, rfl, rfl, rfl⟩

/-- Claim C10: when a mounted Writer's name prop changes while its children
reference stays the same, the update releases the old name (absent
afterwards, given the JS unique-key invariant) and registers the unchanged
memoized content under the new name, which the memo keeps
identity-stable. -/
theorem writer_rename_moves_registration (inst : SlotInstance) (n' : String)
    (fresh : Nat) (s : ProviderState) (h : n' ≠ inst.name)
    (hw : keysNodup s.slotValues) :
    hasKey (slotUpdate inst n' inst.children fresh s).2.slotValues
      inst.name = false ∧
    jsIndex (slotUpdate inst n' inst.children fresh s).2.slotValues n' =
      inst.memoContent ∧
    (slotUpdate inst n' inst.children fresh s).1.memoContent =
      inst.memoContent := by
  have hred : slotUpdate inst n' inst.children fresh s =
      (⟨n', inst.children, inst.memoContent⟩,
        setSlotValueS (removeSlotValueS s inst.name) n' inst.memoContent) := by
    unfold slotUpdate
    simp [Ne.symm h]
  have e2 : (slotUpdate inst n' inst.children fresh s).2 =
      setSlotValueS (removeSlotValueS s inst.name) n' inst.memoContent := by
    rw [hred]
  have e1 : (slotUpdate inst n' inst.children fresh s).1.memoContent =
      inst.memoContent := by
    rw [hred]
  refine ⟨?_, ?_, e1⟩
  · rw [e2, setSlotValueS_slotValues]
    unfold hasKey
    rw [getEntry_setSlotValue_ne _ n' inst.name inst.memoContent (Ne.symm h),
      removeSlotValueS_slotValues,
      getEntry_removeSlotValue_self_of_nodup s.slotValues inst.name hw]
    rfl
  · rw [e2, setSlotValueS_slotValues, jsIndex_setSlotValue_self]

/-- Witness for C10: a Writer for `"a"` with stable text content is renamed
to `"b"`; afterwards `"a"` is absent and `"b"` holds the same content. -/
theorem writer_rename_moves_registration_witness :
    hasKey (slotUpdate
        ⟨"a", SlotChildren.node (ReactNode.text "B"),
          SlotChildren.node (ReactNode.text "B")⟩ "b"
        (SlotChildren.node (ReactNode.text "B")) 3
        ⟨0, [("a", SlotChildren.node (ReactNode.text "B"))], 1⟩).2.slotValues
      "a" = false ∧
    jsIndex (slotUpdate
        ⟨"a", SlotChildren.node (ReactNode.text "B"),
          SlotChildren.node (ReactNode.text "B")⟩ "b"
        (SlotChildren.node (ReactNode.text "B")) 3
        ⟨0, [("a", SlotChildren.node (ReactNode.text "B"))], 1⟩).2.slotValues
      "b" = SlotChildren.node (ReactNode.text "B") ∧
    (slotUpdate
        ⟨"a", SlotChildren.node (ReactNode.text "B"),
          SlotChildren.node (ReactNode.text "B")⟩ "b"
        (SlotChildren.node (ReactNode.text "B")) 3
        ⟨0, [("a", SlotChildren.node (ReactNode.text "B"))], 1⟩).1.memoContent =
      SlotChildren.node (ReactNode.text "B") :=
  writer_rename_moves_registration
    ⟨"a", SlotChildren.node (ReactNode.text "B"),
      SlotChildren.node (ReactNode.text "B")⟩ "b" 3
    ⟨0, [("a", SlotChildren.node (ReactNode.text "B"))], 1⟩
    (by decide) (by decide)

end SimpleSlots
